import Mathlib

/-!
Verification of the StarryPy3k core proxy (`server.py`): the packet framing
codec (`read_packet`), the per-connection pump loops, outbound injection
(`send_message`), teardown (`die`), and the connection registry
(`ServerFactory`).  Byte streams are modelled as `List Nat` (each element a
byte value), asyncio stream reads as list consumption, and stream writes as
an explicit event trace.  zlib decompression is an external library call and
is abstracted as a function parameter `decompress`; likewise the packet
builders `ChatReceived.build` and `build_packet` (external collaborators)
are function parameters.
-/

namespace StarryPy

/-! ## VLQ codec.

`read_signed_vlq` lives in `utilities.py`, which is repository code not
present under `src/`; it is modelled from the spec here. -/

/-- Modelled from the spec: the unsigned base-128 VLQ reader underlying
`utilities.read_signed_vlq` (file `utilities.py`, absent from `src/`).
Continuation bit is the high bit of each byte, value bits are the low
7 bits, little-endian accumulation.  Returns the decoded value, the raw
bytes consumed, and the rest of the stream; `none` models
`IncompleteReadError` (end of stream). -/
def read_vlq : List Nat → Option (Nat × List Nat × List Nat)
  | [] => none
  | b :: rest =>
    if b < 128 then
      some (b, [b], rest)
    else
      match read_vlq rest with
      | some (v, d, r) => some ((b - 128) + v * 128, b :: d, r)
      | none => none

/-- Modelled from the spec: the unsigned VLQ writer (inverse of `read_vlq`),
used to state the round-trip property over "valid encoded frames". -/
def write_vlq (n : Nat) : List Nat :=
  if h : n < 128 then [n]
  else (n % 128 + 128) :: write_vlq (n / 128)
  decreasing_by exact Nat.div_lt_self (by omega) (by omega)

/-- Modelled from the spec: the zig-zag sign decode — bit 0 of the unsigned
value is the sign, the remaining bits the magnitude. -/
def zigzag_decode (v : Nat) : Int :=
  if v % 2 = 0 then ((v / 2 : Nat) : Int) else -(((v / 2 : Nat) : Int) + 1)

/-- Modelled from the spec: the zig-zag sign encode, inverse of
`zigzag_decode`. -/
def zigzag_encode (n : Int) : Nat :=
  if 0 ≤ n then 2 * n.toNat else 2 * (-n).toNat - 1

/-- Modelled from the spec: `utilities.read_signed_vlq` (absent from
`src/`) — reads an unsigned VLQ and applies the sign decode; returns the
signed value, the raw bytes consumed and the rest of the stream. -/
def read_signed_vlq (s : List Nat) : Option (Int × List Nat × List Nat) :=
  match read_vlq s with
  | some (v, d, r) => some (zigzag_decode v, d, r)
  | none => none

/-- Modelled from the spec: signed VLQ writer, inverse of
`read_signed_vlq`. -/
def write_signed_vlq (n : Int) : List Nat :=
  write_vlq (zigzag_encode n)

/-! ## The framer: `read_packet` (`server.py` lines 25–58). -/

/-- Direction tag; the source passes the strings `"Client"` / `"Server"`. -/
abbrev Direction := String

/-- The decoded frame record built by `read_packet` (the dict `p`). -/
structure Packet where
  type : Nat
  size : Nat
  compressed : Bool
  data : List Nat
  original_data : List Nat
  direction : Direction
  deriving DecidableEq, Repr

/-- Failure modes of `read_packet`: `incompleteRead` models
`asyncio.IncompleteReadError` from `readexactly` (end of stream),
`decompressFailed` the re-raised zlib error. -/
inductive ReadError where
  | incompleteRead
  | decompressFailed
  deriving DecidableEq, Repr

/-- `read_packet(reader, direction)` from `server.py` lines 25–58, with the
external zlib decompression abstracted as the parameter `decompress`
(`none` = the decompressor raised).  Returns the packet record and the
unconsumed rest of the stream. -/
def read_packet (decompress : List Nat → Option (List Nat))
    (direction : Direction) (reader : List Nat) :
    Except ReadError (Packet × List Nat) :=
  match reader with
  | [] => .error .incompleteRead
  | packet_type :: s1 =>
    match read_signed_vlq s1 with
    | none => .error .incompleteRead
    | some (psize, packet_size_data, s2) =>
      let packet_size := psize.natAbs
      if packet_size ≤ s2.length then
        let data := s2.take packet_size
        let s3 := s2.drop packet_size
        if psize < 0 then
          match decompress data with
          | some pdata =>
            .ok ({ type := packet_type, size := packet_size, compressed := true,
                   data := pdata,
                   original_data := packet_type :: (packet_size_data ++ data),
                   direction := direction }, s3)
          | none => .error .decompressFailed
        else
          .ok ({ type := packet_type, size := packet_size, compressed := false,
                 data := data,
                 original_data := packet_type :: (packet_size_data ++ data),
                 direction := direction }, s3)
      else .error .incompleteRead

/-- Modelled from the spec: the frame encoder (wire format §6) used to
quantify over "valid encoded frames": type byte, then the signed VLQ of the
payload length (negated when the compression flag is set), then the raw
payload bytes. -/
def encodeFrame (ptype : Nat) (compressed : Bool) (raw : List Nat) : List Nat :=
  ptype ::
    (write_signed_vlq (if compressed then -(raw.length : Int) else (raw.length : Int))
      ++ raw)

/-! ## Connection state, events, and the write paths
(`server.py` lines 15–22, 99–152). -/

/-- `State` (`server.py` lines 15–22): the seven handshake stages. -/
inductive State where
  | VERSION_SENT
  | CLIENT_CONNECT_RECEIVED
  | HANDSHAKE_CHALLENGE_SENT
  | HANDSHAKE_RESPONSE_RECEIVED
  | CONNECT_RESPONSE_SENT
  | CONNECTED
  | CONNECTED_WITH_HEARTBEAT
  deriving DecidableEq, Repr

/-- Observable stream I/O of one connection.  "Downstream" is
`self._writer` (towards the game client), "upstream" is
`self._client_writer` (towards the real game server). -/
inductive Event where
  | writeDownstream (bytes : List Nat)
  | drainDownstream
  | writeUpstream (bytes : List Nat)
  | drainUpstream
  deriving DecidableEq, Repr

/-- `StarryPyServer.write` (lines 113–116): write the packet's
`original_data` to `self._writer` and drain `self._writer`. -/
def write_ev (packet : Packet) (tr : List Event) : List Event :=
  tr ++ [.writeDownstream packet.original_data, .drainDownstream]

/-- `StarryPyServer.raw_write` (lines 118–121): write `data` to
`self._writer` and drain `self._writer`. -/
def raw_write_ev (data : List Nat) (tr : List Event) : List Event :=
  tr ++ [.writeDownstream data, .drainDownstream]

/-- `StarryPyServer.write_client` (lines 123–126): write the packet's
`original_data` to `self._client_writer`, then drain `self._writer`
(the source drains the downstream writer, not the upstream one). -/
def write_client_ev (packet : Packet) (tr : List Event) : List Event :=
  tr ++ [.writeUpstream packet.original_data, .drainDownstream]

/-- The chat fields passed to `ChatReceived.build` in `send_message`. -/
structure ChatMsg where
  message : String
  world : String
  client_id : Nat
  name : String
  channel : Nat
  deriving DecidableEq, Repr

/-- `StarryPyServer.send_message` (lines 99–111), with the external
builders `ChatReceived.build` (`data_parser.py`) and `build_packet`
(`pparser.py`) abstracted as parameters: when the connection state equals
`CONNECTED_WITH_HEARTBEAT`, build the chat packet and `raw_write` it;
otherwise do nothing. -/
def send_message (build_packet : Nat → List Nat → List Nat)
    (chatReceived_build : ChatMsg → List Nat)
    (state : Option State) (msg : ChatMsg) (tr : List Event) : List Event :=
  if state = some State.CONNECTED_WITH_HEARTBEAT then
    let chat_packet := chatReceived_build msg
    let to_send := build_packet 4 chat_packet
    raw_write_ev to_send tr
  else tr

/-! ## Connection lifecycle and registry
(`server.py` lines 61–97, 128–139, 155–194). -/

/-- The observable per-connection resources of `StarryPyServer`:
identity, `self.state`, `self._alive`, whether each writer has been
closed and whether each loop task has been cancelled. -/
structure ServerConn where
  id : Nat
  state : Option State
  alive : Bool
  writerClosed : Bool
  clientWriterClosed : Bool
  serverLoopCancelled : Bool
  clientLoopCancelled : Bool
  deriving DecidableEq, Repr

/-- `StarryPyServer.__init__` (lines 62–72): `self.state = None`,
`self._alive = True`, nothing closed or cancelled yet. -/
def mkStarryPyServer (id : Nat) : ServerConn :=
  { id := id, state := none, alive := true, writerClosed := false,
    clientWriterClosed := false, serverLoopCancelled := false,
    clientLoopCancelled := false }

/-- `ServerFactory.remove` (lines 189–190): `self.protocols.remove(protocol)`
— removes the first occurrence by identity; Python `list.remove` raises
`ValueError` when the element is absent (modelled as `.error ()`).  The
registry is the list of connection identities. -/
def factory_remove (protocols : List Nat) (pid : Nat) :
    Except Unit (List Nat) :=
  if pid ∈ protocols then .ok (protocols.erase pid) else .error ()

/-- `StarryPyServer.die` (lines 128–139): when `self._alive`, close both
writers, cancel both loop tasks, remove the connection from the factory's
registry (which can raise `ValueError` if absent — propagated here) and
clear `self._alive`; otherwise do nothing. -/
def die (c : ServerConn) (protocols : List Nat) :
    Except Unit (ServerConn × List Nat) :=
  if c.alive then
    let c1 := { c with writerClosed := true, clientWriterClosed := true,
                       serverLoopCancelled := true, clientLoopCancelled := true }
    match factory_remove protocols c.id with
    | .ok protocols2 => .ok ({ c1 with alive := false }, protocols2)
    | .error e => .error e
  else .ok (c, protocols)

/-- `ServerFactory.__call__` (lines 192–194): construct a `StarryPyServer`
and append it to `self.protocols`. -/
def factory_call (protocols : List Nat) (cid : Nat) :
    ServerConn × List Nat :=
  (mkStarryPyServer cid, protocols ++ [cid])

/-- One iteration of `server_loop`'s `while True` after a frame was read
(lines 83–84): when `check_plugins` (abstracted as `verdict`) approves,
`write_client` the packet; otherwise do nothing. -/
def server_loop_body (verdict : Packet → Bool) (p : Packet) (tr : List Event) :
    List Event :=
  if verdict p then write_client_ev p tr else tr

/-- The `while True` of `StarryPyServer.server_loop` (lines 80–84):
repeatedly `read_packet` from the client stream and run the loop body.
Returns the error that ended the loop (end of stream or decode failure,
the exception that escapes the `while`) together with the accumulated
write trace. -/
def pump (decompress : List Nat → Option (List Nat)) (verdict : Packet → Bool)
    (s : List Nat) (tr : List Event) : ReadError × List Event :=
  match h : read_packet decompress "Client" s with
  | .error e => (e, tr)
  | .ok (p, rest) =>
      pump decompress verdict rest (server_loop_body verdict p tr)
termination_by s.length
decreasing_by
  have hvlq : ∀ t : List Nat, ∀ v dd r, read_vlq t = some (v, dd, r) →
      r.length < t.length := by
    intro t
    induction t with
    | nil => intro v dd r hx; simp [read_vlq] at hx
    | cons b bs ih =>
      intro v dd r hx
      simp only [read_vlq] at hx
      by_cases hb : b < 128
      · rw [if_pos hb] at hx
        simp only [Option.some.injEq, Prod.mk.injEq] at hx
        obtain ⟨-, -, rfl⟩ := hx
        simp
      · rw [if_neg hb] at hx
        cases hy : read_vlq bs with
        | none => rw [hy] at hx; simp at hx
        | some w =>
          obtain ⟨v2, dd2, r2⟩ := w
          rw [hy] at hx
          simp only [Option.some.injEq, Prod.mk.injEq] at hx
          obtain ⟨-, -, rfl⟩ := hx
          have := ih v2 dd2 r2 hy
          simp only [List.length_cons]
          omega
  revert h
  cases s with
  | nil => intro h; rw [read_packet.eq_def] at h; simp at h
  | cons b s1 =>
    intro h
    rw [read_packet.eq_def] at h
    cases hy : read_signed_vlq s1 with
    | none => simp only [hy] at h; exact Except.noConfusion h
    | some w =>
      obtain ⟨v, dd, s2⟩ := w
      have hs2 : s2.length < s1.length := by
        rw [read_signed_vlq] at hy
        cases hz : read_vlq s1 with
        | none => rw [hz] at hy; simp at hy
        | some u =>
          obtain ⟨v0, dd0, r0⟩ := u
          rw [hz] at hy
          simp only [Option.some.injEq, Prod.mk.injEq] at hy
          obtain ⟨-, -, rfl⟩ := hy
          exact hvlq s1 v0 dd0 r0 hz
      simp only [hy] at h
      by_cases hle : v.natAbs ≤ s2.length
      · rw [if_pos hle] at h
        by_cases hneg : v < 0
        · rw [if_pos hneg] at h
          cases hd : decompress (s2.take v.natAbs) with
          | none => rw [hd] at h; simp at h
          | some out =>
            rw [hd] at h
            simp only [Except.ok.injEq, Prod.mk.injEq] at h
            obtain ⟨-, rfl⟩ := h
            simp only [List.length_cons, List.length_drop]
            omega
        · rw [if_neg hneg] at h
          simp only [Except.ok.injEq, Prod.mk.injEq] at h
          obtain ⟨-, rfl⟩ := h
          simp only [List.length_cons, List.length_drop]
          omega
      · rw [if_neg hle] at h
        simp at h

/-- How `server_loop` (lines 74–86) exits: either the upstream dial on
line 76–78 raised (before the `try`), or the relay loop ended with a read
error inside the `try`. -/
inductive LoopExit where
  | dialFailed
  | readError (e : ReadError)
  deriving DecidableEq, Repr

/-- `StarryPyServer.server_loop` (lines 74–86): first dial the upstream
server (outside the `try`); on success run the relay loop and, in the
`finally`, call `die`; on dial failure the exception propagates with no
`finally` to run — `die` is never called and the connection is returned
unchanged.  Result: how the loop exited, the write trace, and the outcome
of the (possible) teardown. -/
def server_loop_run (dialOk : Bool) (decompress : List Nat → Option (List Nat))
    (verdict : Packet → Bool) (s : List Nat)
    (c : ServerConn) (protocols : List Nat) :
    LoopExit × List Event × Except Unit (ServerConn × List Nat) :=
  if dialOk then
    let r := pump decompress verdict s []
    (.readError r.1, r.2, die c protocols)
  else
    (.dialFailed, [], .ok (c, protocols))

/-- A connection as seen by `ServerFactory.broadcast`: its identity, its
`state`, and whether its downstream writer is already closed (so that
`raw_write` raises `ConnectionError`). -/
structure Proto where
  id : Nat
  state : Option State
  closed : Bool
  deriving DecidableEq, Repr

/-- One `protocol.send_message(...)` call as made by `broadcast`: a no-op
for a connection not in `CONNECTED_WITH_HEARTBEAT`; otherwise the built
chat frame is written to the connection's downstream stream —
`ConnectionError` (modelled `.error ()`) when that stream is closed.
Events are tagged with the receiving connection's identity. -/
def send_message_conn (build_packet : Nat → List Nat → List Nat)
    (chatReceived_build : ChatMsg → List Nat) (msg : ChatMsg) (p : Proto) :
    Except Unit (List (Nat × Event)) :=
  if p.state = some State.CONNECTED_WITH_HEARTBEAT then
    if p.closed then .error ()
    else .ok [(p.id, .writeDownstream (build_packet 4 (chatReceived_build msg))),
              (p.id, .drainDownstream)]
  else .ok []

/-- `ServerFactory.broadcast` (lines 177–187): `send_message` to each
protocol in `self.protocols` in order, catching `ConnectionError` and
continuing with the next protocol. -/
def broadcast (build_packet : Nat → List Nat → List Nat)
    (chatReceived_build : ChatMsg → List Nat) (msg : ChatMsg) :
    List Proto → List (Nat × Event)
  | [] => []
  | p :: ps =>
    match send_message_conn build_packet chatReceived_build msg p with
    | .ok ev => ev ++ broadcast build_packet chatReceived_build msg ps
    | .error _ => broadcast build_packet chatReceived_build msg ps

/-! ## Theorems. -/

theorem zigzag_decode_encode (n : Int) : zigzag_decode (zigzag_encode n) = n := by
  unfold zigzag_decode zigzag_encode
  by_cases h : 0 ≤ n
  · simp only [if_pos h]
    have h2 : 2 * n.toNat % 2 = 0 := by omega
    rw [if_pos h2]
    omega
  · simp only [if_neg h]
    have hm : 1 ≤ (-n).toNat := by omega
    have h2 : (2 * (-n).toNat - 1) % 2 = 1 := by omega
    rw [if_neg (by omega)]
    omega

theorem read_vlq_write (n : Nat) (rest : List Nat) :
    read_vlq (write_vlq n ++ rest) = some (n, write_vlq n, rest) := by
  induction n using Nat.strong_induction_on with
  | _ n ih =>
    rw [write_vlq]
    by_cases h : n < 128
    · simp only [dif_pos h]
      simp [read_vlq, h]
    · simp only [dif_neg h]
      have hd : n / 128 < n := Nat.div_lt_self (by omega) (by omega)
      simp only [List.cons_append, read_vlq, if_neg (show ¬ n % 128 + 128 < 128 by omega),
        List.append_eq]
      rw [ih (n / 128) hd]
      simp only [Option.some.injEq, Prod.mk.injEq]
      exact ⟨by omega, trivial⟩

theorem read_signed_vlq_write (n : Int) (rest : List Nat) :
    read_signed_vlq (write_signed_vlq n ++ rest) = some (n, write_signed_vlq n, rest) := by
  unfold read_signed_vlq write_signed_vlq
  rw [read_vlq_write]
  simp [zigzag_decode_encode]

theorem natAbs_size_int (compressed : Bool) (raw : List Nat) :
    (if compressed = true then -(raw.length : Int) else (raw.length : Int)).natAbs
      = raw.length := by
  cases compressed <;> simp

/-- Evaluation of `read_packet` on any encoded frame followed by any stream
remainder: the bytes of the frame are consumed exactly, the record's
`original_data` is the frame, and decompression is consulted exactly when
the decoded VLQ is negative (a compressed frame with empty payload encodes
size `-0 = 0` and therefore decodes as uncompressed). -/
theorem read_packet_encodeFrame (decompress : List Nat → Option (List Nat))
    (dir : Direction) (ptype : Nat) (compressed : Bool) (raw rest : List Nat) :
    read_packet decompress dir (encodeFrame ptype compressed raw ++ rest) =
      if compressed = true ∧ raw ≠ [] then
        match decompress raw with
        | some out =>
          .ok ({ type := ptype, size := raw.length, compressed := true, data := out,
                 original_data := encodeFrame ptype compressed raw, direction := dir }, rest)
        | none => .error .decompressFailed
      else
        .ok ({ type := ptype, size := raw.length, compressed := false, data := raw,
               original_data := encodeFrame ptype compressed raw, direction := dir }, rest) := by
  conv_lhs => rw [encodeFrame, List.cons_append, List.append_assoc]
  simp only [read_packet, read_signed_vlq_write, natAbs_size_int,
    List.take_left, List.drop_left]
  cases compressed with
  | false =>
    simp [encodeFrame]
  | true =>
    cases raw with
    | nil => simp [encodeFrame]
    | cons a tl =>
      rw [if_pos (by simp)]
      have hneg : (if true = true then -(((a :: tl).length : Nat) : Int)
          else (((a :: tl).length : Nat) : Int)) < 0 := by
        rw [if_pos rfl]
        simp only [List.length_cons]
        omega
      rw [if_pos hneg,
        if_pos (show true = true ∧ a :: tl ≠ [] from ⟨rfl, List.cons_ne_nil a tl⟩)]
      simp [encodeFrame]

/-- C1: for every valid encoded frame (any type byte, any payload length,
compressed or not — a compressed frame must carry decompressible bytes),
`read_packet` decodes it to a record whose `original_data` is exactly the
input wire bytes, so relaying `original_data` reproduces the source bytes
without re-encoding. -/
theorem read_packet_original_data_roundtrip
    (decompress : List Nat → Option (List Nat)) (dir : Direction)
    (ptype : Nat) (compressed : Bool) (raw rest : List Nat)
    (hd : compressed = true → (decompress raw).isSome) :
    ∃ p : Packet,
      read_packet decompress dir (encodeFrame ptype compressed raw ++ rest)
        = .ok (p, rest) ∧
      p.original_data = encodeFrame ptype compressed raw := by
  rw [read_packet_encodeFrame]
  by_cases hc : compressed = true ∧ raw ≠ []
  · rw [if_pos hc]
    obtain ⟨out, hout⟩ := Option.isSome_iff_exists.mp (hd hc.1)
    rw [hout]
    exact ⟨_, rfl, rfl⟩
  · rw [if_neg hc]
    exact ⟨_, rfl, rfl⟩

theorem read_packet_original_data_roundtrip_witness :
    ∃ p : Packet,
      read_packet (fun _ => some [7]) "Client" (encodeFrame 4 true [9, 9] ++ [1])
        = .ok (p, [1]) ∧
      p.original_data = encodeFrame 4 true [9, 9] :=
  read_packet_original_data_roundtrip (fun _ => some [7]) "Client" 4 true [9, 9] [1]
    (fun _ => rfl)

/-- C2: on a stream whose signed VLQ decodes to `v`, `read_packet` marks
the record compressed exactly when `v < 0`, sets `size` to `|v|` — which
is the number of payload bytes read off the wire — and sets the payload to
the decompression of the raw bytes for a compressed frame and to the raw
bytes unchanged otherwise. -/
theorem read_packet_fields
    (decompress : List Nat → Option (List Nat)) (dir : Direction)
    (b : Nat) (s1 : List Nat) (v : Int) (d s2 : List Nat)
    (hv : read_signed_vlq s1 = some (v, d, s2))
    (hlen : v.natAbs ≤ s2.length) :
    ((s2.take v.natAbs).length = v.natAbs) ∧
    (v < 0 → read_packet decompress dir (b :: s1) =
        match decompress (s2.take v.natAbs) with
        | some out =>
          .ok ({ type := b, size := v.natAbs, compressed := true,
                 data := out,
                 original_data := b :: (d ++ s2.take v.natAbs), direction := dir },
               s2.drop v.natAbs)
        | none => .error .decompressFailed) ∧
    (0 ≤ v → read_packet decompress dir (b :: s1) =
        .ok ({ type := b, size := v.natAbs, compressed := false,
               data := s2.take v.natAbs,
               original_data := b :: (d ++ s2.take v.natAbs), direction := dir },
             s2.drop v.natAbs)) := by
  refine ⟨by rw [List.length_take]; omega, ?_, ?_⟩
  · intro hneg
    rw [read_packet.eq_def]
    simp only [hv]
    rw [if_pos hlen, if_pos hneg]
  · intro hpos
    rw [read_packet.eq_def]
    simp only [hv]
    rw [if_pos hlen, if_neg (by omega)]

theorem read_packet_fields_witness :
    (([9, 9, 5] : List Nat).take (Int.natAbs 2)).length = Int.natAbs 2 ∧
    read_packet (fun _ => none) "Client" [4, 4, 9, 9, 5]
      = .ok ({ type := 4, size := 2, compressed := false, data := [9, 9],
               original_data := [4, 4, 9, 9], direction := "Client" }, [5]) := by
  have h := read_packet_fields (fun _ => none) "Client" 4 [4, 9, 9, 5] 2 [4] [9, 9, 5]
      rfl (by decide)
  exact ⟨h.1, h.2.2 (by decide)⟩

/-- Helper: what one `die` call does to a live connection registered
exactly once. -/
theorem die_run (c : ServerConn) (protocols : List Nat)
    (halive : c.alive = true) (hcount : protocols.count c.id = 1) :
    die c protocols
      = .ok ({ c with writerClosed := true,
                      clientWriterClosed := true,
                      serverLoopCancelled := true,
                      clientLoopCancelled := true,
                      alive := false },
             protocols.erase c.id) ∧
    c.id ∉ protocols.erase c.id := by
  have hmem : c.id ∈ protocols := by
    rw [← List.count_pos_iff]
    omega
  constructor
  · rw [die, if_pos halive, factory_remove, if_pos hmem]
  · intro hmem2
    have h1 := List.count_erase_self c.id protocols
    have h2 := List.count_pos_iff.mpr hmem2
    omega

/-- Helper: `die` on a connection that is no longer alive does nothing. -/
theorem die_dead (c : ServerConn) (protocols : List Nat)
    (h : c.alive = false) :
    die c protocols = .ok (c, protocols) := by
  rw [die, if_neg (by rw [h]; exact Bool.false_ne_true)]

/-- C5: `die` on a live registered connection closes both writers, cancels
both loop tasks and removes the connection from the registry; a second
`die` returns the same state untouched, so calling `die` twice is
observably the same as calling it once. -/
theorem die_idempotent (c : ServerConn) (protocols : List Nat)
    (halive : c.alive = true) (hcount : protocols.count c.id = 1) :
    ∃ c2, die c protocols = .ok (c2, protocols.erase c.id) ∧
      c2.writerClosed = true ∧ c2.clientWriterClosed = true ∧
      c2.serverLoopCancelled = true ∧ c2.clientLoopCancelled = true ∧
      c2.alive = false ∧ c2.id ∉ protocols.erase c.id ∧
      die c2 (protocols.erase c.id) = .ok (c2, protocols.erase c.id) := by
  obtain ⟨hrun, hout⟩ := die_run c protocols halive hcount
  exact ⟨_, hrun, rfl, rfl, rfl, rfl, rfl, hout, die_dead _ _ rfl⟩

theorem die_idempotent_witness :
    ∃ c2, die (mkStarryPyServer 3) [3] = .ok (c2, ([3] : List Nat).erase 3) ∧
      c2.writerClosed = true ∧ c2.clientWriterClosed = true ∧
      c2.serverLoopCancelled = true ∧ c2.clientLoopCancelled = true ∧
      c2.alive = false ∧ c2.id ∉ ([3] : List Nat).erase 3 ∧
      die c2 (([3] : List Nat).erase 3) = .ok (c2, ([3] : List Nat).erase 3) :=
  die_idempotent (mkStarryPyServer 3) [3] rfl (by decide)

/-- C8 counterexample: `ServerFactory.remove` on a connection absent from
the registry raises `ValueError` (modelled `.error ()`) instead of being a
no-op. -/
theorem factory_remove_absent_raises :
    factory_remove [] 0 = .error () := rfl

/-- C8 (amended): `remove` deletes the first occurrence of the connection
from the registry by identity; when the connection is absent it raises
`ValueError` rather than being a no-op. -/
theorem factory_remove_spec (protocols : List Nat) (pid : Nat) :
    (pid ∈ protocols → factory_remove protocols pid = .ok (protocols.erase pid)) ∧
    (pid ∉ protocols → factory_remove protocols pid = .error ()) := by
  constructor
  · intro h
    rw [factory_remove, if_pos h]
  · intro h
    rw [factory_remove, if_neg h]

theorem factory_remove_spec_witness :
    factory_remove [0] 0 = .ok [] ∧ factory_remove [1] 0 = .error () :=
  ⟨(factory_remove_spec [0] 0).1 (by decide),
   (factory_remove_spec [1] 0).2 (by decide)⟩

/-- C3: the downstream relay step, evaluated at a forwarded "hello" frame:
the record's original bytes are written verbatim to the upstream writer,
and a dropped frame writes nothing — but the flush that follows the
forward is `self._writer.drain()` (`server.py` line 126), i.e. the
downstream client writer, never the upstream one. -/
theorem write_client_drains_wrong_writer :
    server_loop_body (fun _ => true)
        { type := 4, size := 5, compressed := false,
          data := [104, 101, 108, 108, 111],
          original_data := [4, 10, 104, 101, 108, 108, 111],
          direction := "Client" } []
      = [.writeUpstream [4, 10, 104, 101, 108, 108, 111], .drainDownstream] ∧
    server_loop_body (fun _ => false)
        { type := 4, size := 5, compressed := false,
          data := [104, 101, 108, 108, 111],
          original_data := [4, 10, 104, 101, 108, 108, 111],
          direction := "Client" } []
      = [] ∧
    Event.drainUpstream
      ∉ server_loop_body (fun _ => true)
          { type := 4, size := 5, compressed := false,
            data := [104, 101, 108, 108, 111],
            original_data := [4, 10, 104, 101, 108, 108, 111],
            direction := "Client" } [] :=
  ⟨rfl, rfl, by decide⟩

/-- C4: `send_message` writes no bytes at all when the connection state is
not `CONNECTED_WITH_HEARTBEAT`, and writes exactly one built chat frame
(the packet-builder output) to the client stream when it is. -/
theorem send_message_gated (build_packet : Nat → List Nat → List Nat)
    (chatReceived_build : ChatMsg → List Nat) (st : Option State)
    (msg : ChatMsg) (tr : List Event) :
    (st ≠ some State.CONNECTED_WITH_HEARTBEAT →
      send_message build_packet chatReceived_build st msg tr = tr) ∧
    (st = some State.CONNECTED_WITH_HEARTBEAT →
      send_message build_packet chatReceived_build st msg tr =
        tr ++ [.writeDownstream (build_packet 4 (chatReceived_build msg)),
               .drainDownstream]) := by
  constructor
  · intro h
    rw [send_message, if_neg h]
  · intro h
    rw [send_message, if_pos h]
    rfl

theorem send_message_gated_witness :
    send_message (fun _ d => d) (fun _ => [3]) none ⟨"m", "", 0, "", 0⟩ [] = [] ∧
    send_message (fun _ d => d) (fun _ => [3])
        (some State.CONNECTED_WITH_HEARTBEAT) ⟨"m", "", 0, "", 0⟩ []
      = [.writeDownstream [3], .drainDownstream] :=
  ⟨(send_message_gated (fun _ d => d) (fun _ => [3]) none ⟨"m", "", 0, "", 0⟩ []).1
      (by decide),
   (send_message_gated (fun _ d => d) (fun _ => [3])
      (some State.CONNECTED_WITH_HEARTBEAT) ⟨"m", "", 0, "", 0⟩ []).2 rfl⟩

/-- Helper: the pump loop stops at once, with the trace unchanged, when
`read_packet` fails on the stream head. -/
theorem pump_first_error (decompress : List Nat → Option (List Nat))
    (verdict : Packet → Bool) (s : List Nat) (tr : List Event) (e : ReadError)
    (h : read_packet decompress "Client" s = .error e) :
    pump decompress verdict s tr = (e, tr) := by
  rw [pump.eq_def]
  split
  · rename_i e2 heq
    rw [h] at heq
    cases heq
    rfl
  · rename_i p rest heq
    rw [h] at heq
    exact Except.noConfusion heq

/-- C6: a compressed frame whose payload fails to decompress makes the
read fail with the re-raised decompression error (never swallowed: it is
the loop's exit value), the owning pump loop terminates with nothing
forwarded, and the `finally` tears the connection down exactly once —
both writers closed, both loop tasks cancelled, the connection gone from
the registry, and a repeated `die` leaving everything unchanged. -/
theorem decompress_failure_tears_down_once
    (decompress : List Nat → Option (List Nat)) (verdict : Packet → Bool)
    (ptype a : Nat) (tl rest : List Nat)
    (c : ServerConn) (protocols : List Nat)
    (hfail : decompress (a :: tl) = none)
    (halive : c.alive = true) (hcount : protocols.count c.id = 1) :
    ∃ c2, server_loop_run true decompress verdict
        (encodeFrame ptype true (a :: tl) ++ rest) c protocols
        = (.readError .decompressFailed, [], .ok (c2, protocols.erase c.id)) ∧
      c2.writerClosed = true ∧ c2.clientWriterClosed = true ∧
      c2.serverLoopCancelled = true ∧ c2.clientLoopCancelled = true ∧
      c2.alive = false ∧ c2.id ∉ protocols.erase c.id ∧
      die c2 (protocols.erase c.id) = .ok (c2, protocols.erase c.id) := by
  have hrp : read_packet decompress "Client"
      (encodeFrame ptype true (a :: tl) ++ rest) = .error .decompressFailed := by
    rw [read_packet_encodeFrame,
      if_pos (show true = true ∧ a :: tl ≠ [] from ⟨rfl, List.cons_ne_nil a tl⟩),
      hfail]
  have hpump := pump_first_error decompress verdict
    (encodeFrame ptype true (a :: tl) ++ rest) [] .decompressFailed hrp
  obtain ⟨hdie, hout⟩ := die_run c protocols halive hcount
  refine ⟨{ c with writerClosed := true,
                   clientWriterClosed := true,
                   serverLoopCancelled := true,
                   clientLoopCancelled := true,
                   alive := false },
    ?_, rfl, rfl, rfl, rfl, rfl, hout, die_dead _ _ rfl⟩
  rw [server_loop_run, if_pos rfl, hpump, hdie]

theorem decompress_failure_tears_down_once_witness :
    ∃ c2, server_loop_run true (fun _ => none) (fun _ => true)
        (encodeFrame 4 true [9, 9] ++ [1]) (mkStarryPyServer 3) [3]
        = (.readError .decompressFailed, [], .ok (c2, ([3] : List Nat).erase 3)) ∧
      c2.writerClosed = true ∧ c2.clientWriterClosed = true ∧
      c2.serverLoopCancelled = true ∧ c2.clientLoopCancelled = true ∧
      c2.alive = false ∧ c2.id ∉ ([3] : List Nat).erase 3 ∧
      die c2 (([3] : List Nat).erase 3) = .ok (c2, ([3] : List Nat).erase 3) :=
  decompress_failure_tears_down_once (fun _ => none) (fun _ => true) 4 9 [9] [1]
    (mkStarryPyServer 3) [3] rfl rfl (by decide)

/-- C7: `broadcast` skips a connection whose send raises `ConnectionError`
and always continues with every remaining connection: prepending the
failing connection never changes what the rest receive, and in the
two-connection scenario with A's stream closed, B still receives the
message. -/
theorem broadcast_failure_isolated (build_packet : Nat → List Nat → List Nat)
    (chatReceived_build : ChatMsg → List Nat) (msg : ChatMsg) (A B : Proto)
    (hAstate : A.state = some State.CONNECTED_WITH_HEARTBEAT)
    (hAclosed : A.closed = true)
    (hBstate : B.state = some State.CONNECTED_WITH_HEARTBEAT)
    (hBopen : B.closed = false) :
    send_message_conn build_packet chatReceived_build msg A = .error () ∧
    (∀ ps, broadcast build_packet chatReceived_build msg (A :: ps)
        = broadcast build_packet chatReceived_build msg ps) ∧
    broadcast build_packet chatReceived_build msg [A, B]
      = [(B.id, .writeDownstream (build_packet 4 (chatReceived_build msg))),
         (B.id, .drainDownstream)] := by
  have hA : send_message_conn build_packet chatReceived_build msg A = .error () := by
    rw [send_message_conn, if_pos hAstate, if_pos hAclosed]
  have hB : send_message_conn build_packet chatReceived_build msg B
      = .ok [(B.id, .writeDownstream (build_packet 4 (chatReceived_build msg))),
             (B.id, .drainDownstream)] := by
    rw [send_message_conn, if_pos hBstate, if_neg (by rw [hBopen]; exact Bool.false_ne_true)]
  refine ⟨hA, fun ps => ?_, ?_⟩
  · rw [broadcast.eq_def]
    simp only [hA]
  · rw [broadcast.eq_def]
    simp only [hA]
    rw [broadcast.eq_def]
    simp only [hB]
    rfl

theorem broadcast_failure_isolated_witness :
    send_message_conn (fun _ d => d) (fun _ => [2]) ⟨"hi", "", 0, "", 0⟩
        ⟨0, some State.CONNECTED_WITH_HEARTBEAT, true⟩ = .error () ∧
    broadcast (fun _ d => d) (fun _ => [2]) ⟨"hi", "", 0, "", 0⟩
        [⟨0, some State.CONNECTED_WITH_HEARTBEAT, true⟩]
      = broadcast (fun _ d => d) (fun _ => [2]) ⟨"hi", "", 0, "", 0⟩ [] ∧
    broadcast (fun _ d => d) (fun _ => [2]) ⟨"hi", "", 0, "", 0⟩
        [⟨0, some State.CONNECTED_WITH_HEARTBEAT, true⟩,
         ⟨1, some State.CONNECTED_WITH_HEARTBEAT, false⟩]
      = [(1, .writeDownstream [2]), (1, .drainDownstream)] := by
  have h := broadcast_failure_isolated (fun _ d => d) (fun _ => [2]) ⟨"hi", "", 0, "", 0⟩
    ⟨0, some State.CONNECTED_WITH_HEARTBEAT, true⟩
    ⟨1, some State.CONNECTED_WITH_HEARTBEAT, false⟩ rfl rfl rfl rfl
  exact ⟨h.1, h.2.1 [], h.2.2⟩

/-- C9: evaluation of the dial-failure path.  `ServerFactory.__call__`
registers the new connection, but when the upstream dial raises,
`server_loop` aborts before its `try`/`finally`, so `die` never runs: the
inbound client writer stays open, the connection stays alive, and it
remains in the registry — contrary to the claim that the client socket is
closed and no connection remains registered. -/
theorem dial_failure_leaves_connection_registered :
    (factory_call [] 7).1.writerClosed = false ∧
    (factory_call [] 7).1.alive = true ∧
    (factory_call [] 7).1.id ∈ (factory_call [] 7).2 ∧
    server_loop_run false (fun _ => none) (fun _ => true) []
        (factory_call [] 7).1 (factory_call [] 7).2
      = (.dialFailed, [], .ok ((factory_call [] 7).1, (factory_call [] 7).2)) :=
  ⟨rfl, rfl, by decide, rfl⟩

/-- C10: a freshly constructed connection has `state = None` — which is
none of the seven `State` stages — `die` leaves `state` untouched (the
core never assigns a stage), and `send_message` on such a connection
writes nothing. -/
theorem init_state_none (i : Nat) (build_packet : Nat → List Nat → List Nat)
    (chatReceived_build : ChatMsg → List Nat) (msg : ChatMsg) (tr : List Event) :
    (mkStarryPyServer i).state = none ∧
    (∀ s : State, (mkStarryPyServer i).state ≠ some s) ∧
    (∀ protocols x, die (mkStarryPyServer i) protocols = .ok x →
        x.1.state = none) ∧
    send_message build_packet chatReceived_build (mkStarryPyServer i).state msg tr
      = tr := by
  refine ⟨rfl, fun s h => Option.noConfusion h, ?_, ?_⟩
  · intro protocols x hdie
    by_cases hm : i ∈ protocols
    · have hdie2 : die (mkStarryPyServer i) protocols
          = .ok ({ mkStarryPyServer i with
                    writerClosed := true,
                    clientWriterClosed := true,
                    serverLoopCancelled := true,
                    clientLoopCancelled := true,
                    alive := false },
                 protocols.erase i) := by
        rw [die, if_pos (show (mkStarryPyServer i).alive = true from rfl),
          show (mkStarryPyServer i).id = i from rfl, factory_remove, if_pos hm]
        rfl
      rw [hdie2] at hdie
      cases hdie
      rfl
    · have hdie2 : die (mkStarryPyServer i) protocols = .error () := by
        rw [die, if_pos (show (mkStarryPyServer i).alive = true from rfl),
          show (mkStarryPyServer i).id = i from rfl, factory_remove, if_neg hm]
      rw [hdie2] at hdie
      exact Except.noConfusion hdie
  · rw [send_message, if_neg (fun h => Option.noConfusion h)]

theorem init_state_none_witness :
    (mkStarryPyServer 5).state = none ∧
    (mkStarryPyServer 5).state ≠ some State.VERSION_SENT ∧
    ({ mkStarryPyServer 5 with writerClosed := true,
                               clientWriterClosed := true,
                               serverLoopCancelled := true,
                               clientLoopCancelled := true,
                               alive := false } : ServerConn).state = none ∧
    send_message (fun _ d => d) (fun _ => [2]) (mkStarryPyServer 5).state
        ⟨"m", "", 0, "", 0⟩ [] = [] := by
  have h := init_state_none 5 (fun _ d => d) (fun _ => [2]) ⟨"m", "", 0, "", 0⟩ []
  refine ⟨h.1, h.2.1 State.VERSION_SENT, ?_, h.2.2.2⟩
  exact h.2.2.1 [5]
    ({ mkStarryPyServer 5 with writerClosed := true,
                               clientWriterClosed := true,
                               serverLoopCancelled := true,
                               clientLoopCancelled := true,
                               alive := false }, []) rfl

end StarryPy
